import Mathlib

/-!
Verification development for the `ember-fetch` adapter mixin
(`src/addon/mixins/adapter-fetch.ts`).

The file shallowly embeds the translation layer of the repository:

* JavaScript plain objects holding headers are modelled as association lists
  with property read (`objGet`), property write (`objSet`, first occurrence
  updated in place, appended otherwise, matching property insertion order),
  and `Object.assign` (`objAssign`, source keys written onto the target in
  order, later writes winning).
* JavaScript values reaching this layer are modelled by `Js`; compound values
  (objects, arrays) are opaque because the adapter code only tests their
  truthiness, never their contents.
* Promises are modelled by `Except`: `Except.error` is a rejected promise.
* The platform `JSON.parse` and the host framework hooks (`handleResponse`,
  `parseErrorResponse`) are external collaborators and enter as function
  parameters; the transport (`fetch`) enters as its outcome,
  `Except Js Resp`.
-/

namespace EmberFetch

/-- JavaScript values as observed by the adapter layer. Compound values are
opaque (`Js.obj id`): the adapter never inspects their contents, only their
truthiness, which is always `true` for objects and arrays. -/
inductive Js where
  | null
  | bool (b : Bool)
  | num (n : Int)
  | str (s : String)
  | obj (id : Nat)
deriving DecidableEq, Repr

/-- Truthiness of an optional JavaScript value; `none` stands for
`undefined`. Mirrors JavaScript coercion: `undefined`, `null`, `false`, `0`
and the empty string are falsy, every object is truthy. -/
def jsTruthy : Option Js → Bool
  | none => false
  | some Js.null => false
  | some (Js.bool b) => b
  | some (Js.num n) => n != 0
  | some (Js.str s) => s != ""
  | some (Js.obj _) => true

/-- Model of the JavaScript expression `x || y` on optional values. -/
def jsOr (x y : Option Js) : Option Js :=
  if jsTruthy x then x else y

/-- Truthiness of an optional string-valued property read. -/
def isTruthyOpt : Option String → Bool
  | none => false
  | some s => s != ""

/-- A JavaScript plain object with string values (used for header bags),
modelled as an association list in property insertion order. -/
abbrev HeaderObj := List (String × String)

/-- Property read `o[k]` on a plain object. -/
def objGet (o : HeaderObj) (k : String) : Option String :=
  (o.find? (fun p => p.1 == k)).map (fun p => p.2)

/-- Property write `o[k] = v` on a plain object: the first occurrence of the
key is updated in place, otherwise the pair is appended (JavaScript property
insertion order). -/
def objSet (o : HeaderObj) (k v : String) : HeaderObj :=
  match o with
  | [] => [(k, v)]
  | p :: rest => if p.1 == k then (k, v) :: rest else p :: objSet rest k v

/-- Model of `Object.assign(target, src)`: every key of `src` is written onto
`target` in order, so `src` keys overwrite `target` keys. -/
def objAssign (target src : HeaderObj) : HeaderObj :=
  src.foldl (fun acc p => objSet acc p.1 p.2) target

/-- Property read lifted to a possibly-absent object (`undefined.headers`
reads are never performed by the code; this is for stating theorems). -/
def optObjGet (o : Option HeaderObj) (k : String) : Option String :=
  match o with
  | none => none
  | some h => objGet h k

/-- Model of `headersToObject` (adapter-fetch.ts lines 19-27): folds the
response's header entries into a plain object, later entries overwriting
earlier ones under the same key. -/
def headersToObject (headers : List (String × String)) : HeaderObj :=
  headers.foldl (fun acc p => objSet acc p.1 p.2) []

/-- String rendering of a `Js` value inside a query string (the modelled
`serializeQueryParams` needs one; its exact form is irrelevant to the
claims). -/
def jsToQueryString : Js → String
  | Js.null => "null"
  | Js.bool true => "true"
  | Js.bool false => "false"
  | Js.num n => toString n
  | Js.str s => s
  | Js.obj _ => ""

/-- Modelled from the spec: the helper `serializeQueryParams` lives in
`src/addon/utils/serialize-query-params.ts`, which is not among the provided
sources. The spec says only that a non-empty `data` payload is "serialized to
a query string"; it is modelled as ampersand-joined `key=value` pairs. The
claims about `mungOptionsForFetch` depend only on where this string is placed,
not on its contents. -/
def serializeQueryParams (d : List (String × Js)) : String :=
  String.intercalate "&" (d.map (fun p => p.1 ++ "=" ++ jsToQueryString p.2))

/-- String rendering of a scalar `Js` value under `JSON.stringify`. Opaque
compound values render as a placeholder object; the claims never inspect the
body text, only its truthiness (non-emptiness). -/
def jsonStringifyVal : Js → String
  | Js.null => "null"
  | Js.bool true => "true"
  | Js.bool false => "false"
  | Js.num n => toString n
  | Js.str s => "\x22" ++ s ++ "\x22"
  | Js.obj _ => "\x7b\x7d"

/-- Model of `JSON.stringify(options.data)` for a plain data object: renders
`\x7bk:v,...\x7d`. Always a non-empty string (it starts with a brace), which
is what the truthiness test on `options.body` observes. -/
def jsonStringifyObj (d : List (String × Js)) : String :=
  "\x7b" ++
    String.intercalate ","
      (d.map (fun p => "\x22" ++ p.1 ++ "\x22:" ++ jsonStringifyVal p.2)) ++
    "\x7d"

/-- The option bag handed to `mungOptionsForFetch` (`JQueryAjaxSettings` with
a required `url`): a target `url`, an optional method override `type`, an
optional structured `data` payload (a plain object, modelled as key/value
pairs), and an optional `headers` object. -/
structure MungOptions where
  url : String
  type : Option String
  data : Option (List (String × Js))
  headers : Option HeaderObj
deriving DecidableEq, Repr

/-- The fetch-ready request descriptor produced by `mungOptionsForFetch`. -/
structure FetchOptions where
  credentials : String
  url : String
  type : Option String
  method : String
  data : Option (List (String × Js))
  headers : Option HeaderObj
  body : Option String
deriving DecidableEq, Repr

/-- Method resolution (line 51): `options.method = options.type || 'GET'`;
`undefined` and the empty string are falsy. -/
def resolveMethod (ty : Option String) : String :=
  match ty with
  | some t => if t == "" then "GET" else t
  | none => "GET"

/-- Adapter-header merge (lines 45-48): when the adapter's `headers` property
is defined, `options.headers = assign(options.headers || \x7b\x7d,
adapterHeaders)` — adapter keys are written onto the caller's headers, so on
a key present in both the adapter's value wins. -/
def mergeAdapterHeaders (callerHeaders adapterHeaders : Option HeaderObj) :
    Option HeaderObj :=
  match adapterHeaders with
  | some ah => some (objAssign (callerHeaders.getD []) ah)
  | none => callerHeaders

/-- Url/body resolution (lines 53-69): a truthy `data` payload becomes a
query string for `GET`/`HEAD` (only when it has at least one key, with `&`
as delimiter when the url already contains `?`), and a JSON-encoded body for
every other method. -/
def resolveUrlBody (url : String) (method : String)
    (data : Option (List (String × Js))) : String × Option String :=
  match data with
  | none => (url, none)
  | some d =>
    if method == "GET" || method == "HEAD" then
      if d.length != 0 then
        (url ++ (if url.data.contains '?' then "&" else "?") ++
          serializeQueryParams d, none)
      else (url, none)
    else (url, some (jsonStringifyObj d))

/-- Content-type presence test (lines 76-77): the guard passes when
`options.headers` is `undefined`, or when neither the exact key
`Content-Type` nor the exact key `content-type` holds a truthy value. -/
def contentTypeAbsent : Option HeaderObj → Bool
  | none => true
  | some h =>
    !(isTruthyOpt (objGet h "Content-Type") ||
      isTruthyOpt (objGet h "content-type"))

/-- Content-type defaulting (lines 73-81): when the resolved method is not
`GET`, the body is truthy, and no content-type key (in either of the two
spellings checked) holds a truthy value, set
`Content-Type: application/json; charset=utf-8`. -/
def applyContentTypeDefault (method : String) (body : Option String)
    (headers : Option HeaderObj) : Option HeaderObj :=
  if method != "GET" && isTruthyOpt body && contentTypeAbsent headers then
    some (objSet (headers.getD []) "Content-Type"
      "application/json; charset=utf-8")
  else headers

/-- Model of `mungOptionsForFetch` (lines 34-84). The descriptor starts from
`assign(\x7bcredentials: 'same-origin'\x7d, _options)` (so `credentials` is
always `same-origin` and every caller field is carried over), merges adapter
headers, resolves the method, routes `data` to query string or body, and
finally defaults the content type. -/
def mungOptionsForFetch (opts : MungOptions)
    (adapterHeaders : Option HeaderObj) : FetchOptions :=
  { credentials := "same-origin"
    url := (resolveUrlBody opts.url (resolveMethod opts.type) opts.data).1
    type := opts.type
    method := resolveMethod opts.type
    data := opts.data
    headers := applyContentTypeDefault (resolveMethod opts.type)
      (resolveUrlBody opts.url (resolveMethod opts.type) opts.data).2
      (mergeAdapterHeaders opts.headers adapterHeaders)
    body := (resolveUrlBody opts.url (resolveMethod opts.type) opts.data).2 }

/-- The outcome of `JSON.parse(payload)`: a parsed value, a thrown
`SyntaxError`, or a thrown error of any other class. The platform parser is
external, so it enters the model as a function `String → ParseOutcome`. -/
inductive ParseOutcome where
  | parsed (v : Js)
  | syntaxError
  | otherError
deriving DecidableEq, Repr

/-- The fetch `Response` fields this layer reads: `status`, `ok`,
`statusText`, the header entries, and the body read as text by
`response.text()`. -/
structure Resp where
  status : Nat
  ok : Bool
  statusText : String
  headersList : List (String × String)
  bodyText : String
deriving DecidableEq, Repr

/-- The `requestData` record built by `ajax` (lines 153-156): the request's
url and its method as passed to `ajax`. -/
structure RequestData where
  url : String
  method : String
deriving DecidableEq, Repr

/-- Model of `determineBodyPromise` (lines 94-114). The body text is parsed
as JSON; a thrown non-`SyntaxError` is re-thrown (a rejected promise, here
`Except.error`); on a `SyntaxError`, a successful (`ok`) response with
status 204 or 205, or a request whose method was `HEAD`, resolves to
`undefined` (here `none`), and every other response resolves to the raw body
text after a console warning (recorded in the `Bool` component). -/
def determineBodyPromise (parse : String → ParseOutcome) (response : Resp)
    (requestData : RequestData) : Except Unit (Option Js × Bool) :=
  match parse response.bodyText with
  | ParseOutcome.parsed v => Except.ok (some v, false)
  | ParseOutcome.otherError => Except.error ()
  | ParseOutcome.syntaxError =>
    if response.ok &&
        (response.status == 204 || response.status == 205 ||
          requestData.method == "HEAD") then
      Except.ok (none, false)
    else
      Except.ok (some (Js.str response.bodyText), true)

/-- The value produced by the host framework's `handleResponse` hook when it
is not `null`/`undefined`: a flag telling whether the host classified the
response as an adapter error, plus an opaque tag distinguishing values. -/
structure HandleResult where
  isAdapterError : Bool
  tag : Nat
deriving DecidableEq, Repr

/-- The host `handleResponse(status, headers, payload, requestData)` hook is
an external collaborator; `none` models a `null`/`undefined` return. -/
abbrev HandleResponse :=
  Nat → HeaderObj → Option Js → RequestData → Option HandleResult

/-- Model of `ajaxSuccess` (lines 210-228): delegate to the host's
`handleResponse`; when its result is truthy and flagged `isAdapterError`,
reject with that value (`Except.error`), otherwise resolve with it. -/
def ajaxSuccess (handleResponse : HandleResponse) (response : Resp)
    (payload : Option Js) (requestData : RequestData) :
    Except (Option HandleResult) (Option HandleResult) :=
  match handleResponse response.status (headersToObject response.headersList)
      payload requestData with
  | some hr =>
    if hr.isAdapterError then Except.error (some hr) else Except.ok (some hr)
  | none => Except.ok none

/-- Model of `parseFetchResponseForError` (lines 236-238):
`payload || response.statusText`. -/
def parseFetchResponseForError (response : Resp) (payload : Option Js) :
    Option Js :=
  jsOr payload (some (Js.str response.statusText))

/-- Model of `ajaxError` (lines 249-270) on the path taken from `ajax`,
where the `error` argument is `undefined`: select an error payload with
`parseFetchResponseForError`, refine it through the host's
`parseErrorResponse` hook falling back to the raw payload, and delegate
classification to the host's `handleResponse`. -/
def ajaxError (handleResponse : HandleResponse)
    (parseErrorResponse : Option Js → Option Js) (response : Resp)
    (payload : Option Js) (requestData : RequestData) : Option HandleResult :=
  handleResponse response.status (headersToObject response.headersList)
    (jsOr (parseErrorResponse (parseFetchResponseForError response payload))
      payload)
    requestData

/-- The overall outcome of one `ajax` exchange: resolved with the host's
classification, rejected with a host-produced value (an adapter error from
the success path, or the `ajaxError` value from the failure path), rejected
with the re-thrown body-decoding error, or rejected with the transport's own
error (re-thrown unchanged by the `.catch` at lines 161-163). -/
inductive AjaxOutcome where
  | resolved (v : Option HandleResult)
  | rejected (v : Option HandleResult)
  | bodyFailed
  | transportFailed (e : Js)
deriving DecidableEq, Repr

/-- Model of `ajax` (lines 152-182) from the transport's outcome onward:
build `requestData`, re-throw a transport error unchanged, decode the body
with `determineBodyPromise` (its rejection propagates), then on `response.ok`
route `payload || ''` through `ajaxSuccess`, and otherwise throw the
`ajaxError` value. -/
def ajax (transport : Except Js Resp) (parse : String → ParseOutcome)
    (handleResponse : HandleResponse)
    (parseErrorResponse : Option Js → Option Js) (url ty : String) :
    AjaxOutcome :=
  match transport with
  | Except.error e => AjaxOutcome.transportFailed e
  | Except.ok response =>
    match determineBodyPromise parse response { url := url, method := ty } with
    | Except.error _ => AjaxOutcome.bodyFailed
    | Except.ok (payload, _warned) =>
      if response.ok then
        match ajaxSuccess handleResponse response
            (jsOr payload (some (Js.str ""))) { url := url, method := ty } with
        | Except.ok v => AjaxOutcome.resolved v
        | Except.error v => AjaxOutcome.rejected v
      else
        AjaxOutcome.rejected (ajaxError handleResponse parseErrorResponse
          response payload { url := url, method := ty })

/-- The caller's option bag as it stands in the caller's hands around a call
to `ajaxOptions` (`url` and `type` may be absent before the call). -/
structure OptionsBag where
  url : Option String
  type : Option String
  data : Option (List (String × Js))
  headers : Option HeaderObj
deriving DecidableEq, Repr

/-- Heap model of `ajaxOptions` (lines 140-144). The source mutates the
caller's bag (`options.url = url; options.type = type`) and then calls
`mungOptionsForFetch` on the shallow copy `\x7b...options, url, type\x7d`.
The copy is shallow, so `options.headers` inside `mungOptionsForFetch`
aliases the caller's headers object whenever the caller supplied one; both
`assign(options.headers || \x7b\x7d, adapterHeaders)` (line 47) and the
content-type write (line 80) mutate their target in place, so in every path
the caller's headers object ends the call holding exactly the descriptor's
final headers content, while a caller who supplied no headers object is
untouched by those writes (the targets are then fresh objects). The result
is the returned descriptor paired with the caller's bag after the call. -/
def ajaxOptionsEffect (url ty : String) (bag : OptionsBag)
    (adapterHeaders : Option HeaderObj) : FetchOptions × OptionsBag :=
  let fo := mungOptionsForFetch
    { url := url, type := some ty, data := bag.data, headers := bag.headers }
    adapterHeaders
  (fo,
    { url := some url
      type := some ty
      data := bag.data
      headers := if bag.headers.isSome then fo.headers else bag.headers })

/-- First-or-second choice on optional strings, used to state merge
precedence. -/
def optOr (x y : Option String) : Option String :=
  match x with
  | some v => some v
  | none => y

theorem objGet_cons (p : String × String) (o : HeaderObj) (k : String) :
    objGet (p :: o) k = if p.1 == k then some p.2 else objGet o k := by
  cases h : p.1 == k <;> simp [objGet, List.find?, h]

theorem objGet_objSet_self (o : HeaderObj) (k v : String) :
    objGet (objSet o k v) k = some v := by
  induction o with
  | nil => simp [objSet, objGet, List.find?]
  | cons p rest ih =>
    cases h : p.1 == k with
    | true => simp [objSet, h, objGet, List.find?]
    | false => simp [objSet, h, objGet_cons, ih]

theorem objGet_objSet_ne (o : HeaderObj) (k v k' : String) (h : k' ≠ k) :
    objGet (objSet o k v) k' = objGet o k' := by
  have hkk : (k == k') = false := by
    simp [beq_iff_eq]
    intro he
    exact h he.symm
  induction o with
  | nil => simp [objSet, objGet, List.find?, hkk]
  | cons p rest ih =>
    cases hp : p.1 == k with
    | true =>
      have hp1 : p.1 = k := by simpa [beq_iff_eq] using hp
      simp [objSet, hp, objGet_cons, hkk, hp1]
    | false => simp [objSet, hp, objGet_cons, ih]

theorem objGet_eq_none_of_not_mem {o : HeaderObj} {k : String}
    (h : ¬ k ∈ o.map Prod.fst) : objGet o k = none := by
  have hf : o.find? (fun p => p.1 == k) = none := by
    rw [List.find?_eq_none]
    intro x hx hbeq
    have hxk : x.1 = k := by simpa [beq_iff_eq] using hbeq
    exact h (hxk ▸ List.mem_map_of_mem Prod.fst hx)
  simp [objGet, hf]

theorem objGet_objAssign (src : HeaderObj)
    (hnd : (src.map Prod.fst).Nodup) (t : HeaderObj) (k : String) :
    objGet (objAssign t src) k = optOr (objGet src k) (objGet t k) := by
  induction src generalizing t with
  | nil => simp [objAssign, objGet, List.find?, optOr]
  | cons p rest ih =>
    have hnd' : (p.1 :: rest.map Prod.fst).Nodup := by simpa using hnd
    have hp : ¬ p.1 ∈ rest.map Prod.fst := (List.nodup_cons.mp hnd').1
    have hrest : (rest.map Prod.fst).Nodup := (List.nodup_cons.mp hnd').2
    have hstep : objAssign t (p :: rest) = objAssign (objSet t p.1 p.2) rest :=
      rfl
    rw [hstep, ih hrest]
    cases hk : p.1 == k with
    | true =>
      have hk1 : p.1 = k := by simpa [beq_iff_eq] using hk
      have hrnone : objGet rest k = none :=
        objGet_eq_none_of_not_mem (hk1 ▸ hp)
      rw [hrnone, hk1, objGet_objSet_self, objGet_cons]
      simp [hk1, optOr]
    | false =>
      have hk1 : k ≠ p.1 := by
        intro he
        simp [he.symm] at hk
      rw [objGet_objSet_ne t p.1 p.2 k hk1, objGet_cons, hk]
      simp

/-- C1: when a response's body fails JSON parsing with a syntax-class error,
`determineBodyPromise` resolves to the "no content" marker (`undefined`,
here `none`) provided the response is successful (`response.ok`, as the code
requires) and either its status is 204 or 205 or the originating request's
method is `HEAD`; no warning is emitted on this path. -/
theorem determineBodyPromise_noContent (parse : String → ParseOutcome)
    (response : Resp) (requestData : RequestData)
    (hparse : parse response.bodyText = ParseOutcome.syntaxError)
    (hok : response.ok = true)
    (hstat : response.status = 204 ∨ response.status = 205 ∨
      requestData.method = "HEAD") :
    determineBodyPromise parse response requestData =
      Except.ok (none, false) := by
  unfold determineBodyPromise
  rw [hparse]
  rcases hstat with h | h | h <;> simp [h, hok]

/-- Witness for C1: a 204 No Content response to a DELETE whose empty body
fails JSON parsing resolves to the no-content marker. -/
theorem determineBodyPromise_noContent_witness :
    determineBodyPromise (fun _ => ParseOutcome.syntaxError)
      { status := 204, ok := true, statusText := "No Content",
        headersList := [], bodyText := "" }
      { url := "/widgets", method := "DELETE" } = Except.ok (none, false) :=
  determineBodyPromise_noContent _ _ _ rfl rfl (Or.inl rfl)

/-- C9: when the body fails JSON parsing with a syntax-class error and the
response does not qualify for the no-content tolerance, `determineBodyPromise`
resolves (does not reject) to the raw body text and emits the diagnostic
warning; a parse failure of any other error class is propagated as a
rejection. -/
theorem determineBodyPromise_rawText_or_rethrow (parse : String → ParseOutcome)
    (response : Resp) (requestData : RequestData) :
    (parse response.bodyText = ParseOutcome.syntaxError →
      ¬(response.ok = true ∧ (response.status = 204 ∨ response.status = 205 ∨
          requestData.method = "HEAD")) →
      determineBodyPromise parse response requestData =
        Except.ok (some (Js.str response.bodyText), true)) ∧
    (parse response.bodyText = ParseOutcome.otherError →
      determineBodyPromise parse response requestData = Except.error ()) := by
  constructor
  · intro hparse hno
    unfold determineBodyPromise
    rw [hparse]
    have hcond : (response.ok &&
        (response.status == 204 || response.status == 205 ||
          requestData.method == "HEAD")) = false := by
      cases hok : response.ok with
      | false => simp
      | true =>
        cases h204 : response.status == 204 with
        | true =>
          exact absurd ⟨hok, Or.inl (by simpa [beq_iff_eq] using h204)⟩ hno
        | false =>
          cases h205 : response.status == 205 with
          | true =>
            exact absurd ⟨hok, Or.inr (Or.inl (by
              simpa [beq_iff_eq] using h205))⟩ hno
          | false =>
            cases hhead : requestData.method == "HEAD" with
            | true =>
              exact absurd ⟨hok, Or.inr (Or.inr (by
                simpa [beq_iff_eq] using hhead))⟩ hno
            | false => simp [h204, h205, hhead]
    simp [hcond]
  · intro hparse
    unfold determineBodyPromise
    rw [hparse]

/-- Witness for C9: a 200 response with an unparsable body resolves to the
raw text with a warning, and a non-syntax parse failure rejects. -/
theorem determineBodyPromise_rawText_or_rethrow_witness :
    determineBodyPromise (fun _ => ParseOutcome.syntaxError)
      { status := 200, ok := true, statusText := "OK", headersList := [],
        bodyText := "not json" } { url := "/widgets", method := "GET" } =
      Except.ok (some (Js.str "not json"), true) ∧
    determineBodyPromise (fun _ => ParseOutcome.otherError)
      { status := 200, ok := true, statusText := "OK", headersList := [],
        bodyText := "not json" } { url := "/widgets", method := "GET" } =
      Except.error () :=
  ⟨(determineBodyPromise_rawText_or_rethrow (fun _ => ParseOutcome.syntaxError)
      { status := 200, ok := true, statusText := "OK", headersList := [],
        bodyText := "not json" } { url := "/widgets", method := "GET" }).1
    rfl (by simp),
   (determineBodyPromise_rawText_or_rethrow (fun _ => ParseOutcome.otherError)
      { status := 200, ok := true, statusText := "OK", headersList := [],
        bodyText := "not json" } { url := "/widgets", method := "GET" }).2
    rfl⟩

/-- C6: when the resolved method is GET or HEAD, the descriptor produced by
`mungOptionsForFetch` never has a body; a non-empty `data` payload goes into
the url's query string instead. -/
theorem mungOptionsForFetch_bodyless (opts : MungOptions)
    (adapterHeaders : Option HeaderObj)
    (hm : resolveMethod opts.type = "GET" ∨ resolveMethod opts.type = "HEAD") :
    (mungOptionsForFetch opts adapterHeaders).body = none ∧
    (∀ d, opts.data = some d → d ≠ [] →
      (mungOptionsForFetch opts adapterHeaders).url =
        opts.url ++ (if opts.url.data.contains '?' then "&" else "?") ++
          serializeQueryParams d) := by
  have hmb : (resolveMethod opts.type == "GET" ||
      resolveMethod opts.type == "HEAD") = true := by
    rcases hm with h | h <;> simp [h]
  constructor
  · show (resolveUrlBody opts.url (resolveMethod opts.type) opts.data).2 = none
    cases hd : opts.data with
    | none => simp [resolveUrlBody]
    | some d =>
      cases hlen : d.length != 0 with
      | true => simp [resolveUrlBody, hmb, hlen]
      | false => simp [resolveUrlBody, hmb, hlen]
  · intro d hd hne
    have hlen : (d.length != 0) = true := by
      simpa using hne
    show (resolveUrlBody opts.url (resolveMethod opts.type) opts.data).1 = _
    rw [hd]
    simp [resolveUrlBody, hmb, hlen]

/-- Witness for C6: a GET with one data key gets a query string and no
body. -/
theorem mungOptionsForFetch_bodyless_witness :
    (mungOptionsForFetch
      { url := "/widgets", type := some "GET",
        data := some [("sort", Js.str "id")], headers := none } none).body =
      none ∧
    (mungOptionsForFetch
      { url := "/widgets", type := some "GET",
        data := some [("sort", Js.str "id")], headers := none } none).url =
      "/widgets" ++ "?" ++ serializeQueryParams [("sort", Js.str "id")] :=
  ⟨(mungOptionsForFetch_bodyless
      { url := "/widgets", type := some "GET",
        data := some [("sort", Js.str "id")],
        headers := none } none (Or.inl rfl)).1,
   by
    have h := (mungOptionsForFetch_bodyless
      { url := "/widgets", type := some "GET",
        data := some [("sort", Js.str "id")],
        headers := none } none (Or.inl rfl)).2
      [("sort", Js.str "id")] rfl (by simp)
    rw [h]
    decide⟩

/-- C7: an empty `data` object (zero keys) never alters the url, whatever
the method. -/
theorem mungOptionsForFetch_emptyData (opts : MungOptions)
    (adapterHeaders : Option HeaderObj) (hd : opts.data = some []) :
    (mungOptionsForFetch opts adapterHeaders).url = opts.url := by
  show (resolveUrlBody opts.url (resolveMethod opts.type) opts.data).1 = _
  rw [hd]
  cases hmb : (resolveMethod opts.type == "GET" ||
      resolveMethod opts.type == "HEAD") with
  | true => simp [resolveUrlBody, hmb]
  | false => simp [resolveUrlBody, hmb]

/-- Witness for C7: a GET with an empty data object keeps its url. -/
theorem mungOptionsForFetch_emptyData_witness :
    (mungOptionsForFetch
      { url := "/widgets", type := some "GET",
        data := some [], headers := none } none).url = "/widgets" :=
  mungOptionsForFetch_emptyData _ none rfl

/-- C8: for a GET or HEAD request with a non-empty data payload, the
serialized query parameters are appended to the url with delimiter `&` when
the url already contains a `?`, and `?` otherwise. -/
theorem mungOptionsForFetch_queryDelimiter (opts : MungOptions)
    (adapterHeaders : Option HeaderObj) (d : List (String × Js))
    (hm : resolveMethod opts.type = "GET" ∨ resolveMethod opts.type = "HEAD")
    (hd : opts.data = some d) (hne : d ≠ []) :
    (mungOptionsForFetch opts adapterHeaders).url =
      opts.url ++ (if opts.url.data.contains '?' then "&" else "?") ++
        serializeQueryParams d :=
  (mungOptionsForFetch_bodyless opts adapterHeaders hm).2 d hd hne

/-- Witness for C8: a url already holding a query string gets `&`, a bare
url gets `?`. -/
theorem mungOptionsForFetch_queryDelimiter_witness :
    (mungOptionsForFetch
      { url := "/widgets?page=2", type := some "GET",
        data := some [("sort", Js.str "id")], headers := none } none).url =
      "/widgets?page=2" ++ "&" ++
        serializeQueryParams [("sort", Js.str "id")] := by
  have h := mungOptionsForFetch_queryDelimiter
    { url := "/widgets?page=2", type := some "GET",
      data := some [("sort", Js.str "id")],
      headers := none } none [("sort", Js.str "id")] (Or.inl rfl) rfl (by simp)
  rw [h]
  decide

/-- C2 (amended): when the adapter's default headers are defined,
`mungOptionsForFetch` merges them into the caller-supplied headers with
later precedence: on any key the merged read yields the adapter-default
value when the adapter sets the key, and the caller-supplied value only
otherwise — pointwise for every key other than `Content-Type`, and for
every key whatsoever on a resolved GET request. The sole exception, forced
by the accompanying counterexample, is the `Content-Type` key on a non-GET
request carrying a body, where the later content-type defaulting step
(lines 73-81) can overwrite a falsy merged value. The adapter headers come
from a JavaScript object, hence the duplicate-free key hypothesis. -/
theorem mungOptionsForFetch_adapterHeaderMerge (opts : MungOptions)
    (ah : HeaderObj) (k : String) (hnd : (ah.map Prod.fst).Nodup) :
    (k ≠ "Content-Type" →
      optObjGet (mungOptionsForFetch opts (some ah)).headers k =
        optOr (objGet ah k) (optObjGet opts.headers k)) ∧
    (resolveMethod opts.type = "GET" →
      optObjGet (mungOptionsForFetch opts (some ah)).headers k =
        optOr (objGet ah k) (optObjGet opts.headers k)) := by
  have hmerge : optObjGet (mergeAdapterHeaders opts.headers (some ah)) k =
      optOr (objGet ah k) (optObjGet opts.headers k) := by
    cases hh : opts.headers with
    | none =>
      simp only [mergeAdapterHeaders, hh, Option.getD_none, optObjGet]
      rw [objGet_objAssign ah hnd]
      rfl
    | some ch =>
      simp [mergeAdapterHeaders, optObjGet, objGet_objAssign ah hnd]
  have hgoal : ∀ b : Option String,
      optObjGet (applyContentTypeDefault (resolveMethod opts.type) b
        (mergeAdapterHeaders opts.headers (some ah))) k =
        optOr (objGet ah k) (optObjGet opts.headers k) ∨
      (resolveMethod opts.type != "GET") = true ∧ k = "Content-Type" := by
    intro b
    unfold applyContentTypeDefault
    cases hcond : (resolveMethod opts.type != "GET" && isTruthyOpt b &&
        contentTypeAbsent (mergeAdapterHeaders opts.headers (some ah))) with
    | false => left; simpa [hcond] using hmerge
    | true =>
      by_cases hk : k = "Content-Type"
      · right
        refine ⟨?_, hk⟩
        have := hcond
        simp [Bool.and_eq_true] at this
        simp [this.1.1]
      · left
        simp only [hcond, if_true]
        have hset : objGet (objSet
            ((mergeAdapterHeaders opts.headers (some ah)).getD [])
            "Content-Type" "application/json; charset=utf-8") k =
            objGet ((mergeAdapterHeaders opts.headers (some ah)).getD []) k :=
          objGet_objSet_ne _ _ _ _ hk
        have hgd : objGet ((mergeAdapterHeaders opts.headers (some ah)).getD
            []) k = optObjGet (mergeAdapterHeaders opts.headers (some ah)) k := by
          cases hmm : mergeAdapterHeaders opts.headers (some ah) with
          | none => simp [optObjGet, objGet, List.find?]
          | some h => simp [optObjGet]
        calc optObjGet (some (objSet
              ((mergeAdapterHeaders opts.headers (some ah)).getD [])
              "Content-Type" "application/json; charset=utf-8")) k
            = objGet ((mergeAdapterHeaders opts.headers (some ah)).getD []) k :=
              hset
          _ = optObjGet (mergeAdapterHeaders opts.headers (some ah)) k := hgd
          _ = optOr (objGet ah k) (optObjGet opts.headers k) := hmerge
  constructor
  · intro hk
    rcases hgoal ((resolveUrlBody opts.url (resolveMethod opts.type)
        opts.data).2) with h | h
    · exact h
    · exact absurd h.2 hk
  · intro hget
    rcases hgoal ((resolveUrlBody opts.url (resolveMethod opts.type)
        opts.data).2) with h | h
    · exact h
    · exfalso
      rw [hget] at h
      simp at h

/-- Witness for C2: the adapter's value clobbers the caller's on a shared
key, and an unshared caller key survives. -/
theorem mungOptionsForFetch_adapterHeaderMerge_witness :
    optObjGet (mungOptionsForFetch
      { url := "/widgets", type := some "GET", data := none,
        headers := some [("X-A", "caller"), ("K", "c")] }
      (some [("K", "a"), ("Y", "y")])).headers "K" =
      optOr (objGet [("K", "a"), ("Y", "y")] "K")
        (optObjGet (some [("X-A", "caller"), ("K", "c")]) "K") ∧
    optObjGet (mungOptionsForFetch
      { url := "/widgets", type := some "GET", data := none,
        headers := some [("X-A", "caller"), ("K", "c")] }
      (some [("K", "a"), ("Y", "y")])).headers "X-A" =
      optOr (objGet [("K", "a"), ("Y", "y")] "X-A")
        (optObjGet (some [("X-A", "caller"), ("K", "c")]) "X-A") :=
  ⟨(mungOptionsForFetch_adapterHeaderMerge
      { url := "/widgets", type := some "GET", data := none,
        headers := some [("X-A", "caller"), ("K", "c")] }
      [("K", "a"), ("Y", "y")] "K" (by decide)).2 rfl,
   (mungOptionsForFetch_adapterHeaderMerge
      { url := "/widgets", type := some "GET", data := none,
        headers := some [("X-A", "caller"), ("K", "c")] }
      [("K", "a"), ("Y", "y")] "X-A" (by decide)).2 rfl⟩

/-- C2 counterexample: the merge precedence does not hold on every key of
every option bag. With adapter default headers setting `Content-Type` to
the falsy empty string and the caller also supplying `Content-Type`, on a
POST carrying a body the key is present in both mappings yet ends up
holding the defaulted `application/json; charset=utf-8`, not the
adapter-default value: the content-type defaulting step (lines 73-81) sees
the merged falsy value as absent and overwrites it. -/
theorem mungOptionsForFetch_adapterClobber_counterexample :
    objGet [("Content-Type", "")] "Content-Type" = some "" ∧
    optObjGet (some [("Content-Type", "x")]) "Content-Type" = some "x" ∧
    optObjGet (mungOptionsForFetch
      { url := "/widgets", type := some "POST",
        data := some [("a", Js.str "b")],
        headers := some [("Content-Type", "x")] }
      (some [("Content-Type", "")])).headers "Content-Type" =
      some "application/json; charset=utf-8" :=
  ⟨rfl, rfl, rfl⟩

/-- C4 counterexample: the content-type presence check is NOT
case-insensitive over the header key's spelling. A caller-supplied header
under the spelling `CONTENT-TYPE` (whose characters lowercase to `content-type`, so a
content-type header was already supplied in any case-insensitive reading) on
a POST carrying a body does not suppress the default: the code still writes
`Content-Type: application/json; charset=utf-8`. -/
theorem mungOptionsForFetch_contentType_caseSensitive_counterexample :
    "CONTENT-TYPE".data.map Char.toLower = "content-type".data ∧
    optObjGet (some [("CONTENT-TYPE", "text/plain")]) "CONTENT-TYPE" =
      some "text/plain" ∧
    resolveMethod (some "POST") = "POST" ∧
    (mungOptionsForFetch
      { url := "/widgets", type := some "POST",
        data := some [("a", Js.str "b")],
        headers := some [("CONTENT-TYPE", "text/plain")] } none).body ≠
      none ∧
    optObjGet (mungOptionsForFetch
      { url := "/widgets", type := some "POST",
        data := some [("a", Js.str "b")],
        headers := some [("CONTENT-TYPE", "text/plain")] } none).headers
      "Content-Type" = some "application/json; charset=utf-8" := by
  refine ⟨by decide, rfl, rfl, ?_, rfl⟩
  intro h
  simp [mungOptionsForFetch, resolveUrlBody, resolveMethod] at h

/-- C4 (amended): for a resolved method other than GET and a truthy body,
`mungOptionsForFetch` sets `Content-Type: application/json; charset=utf-8`
if and only if, after the adapter-header merge, neither of the two exact
spellings `Content-Type` and `content-type` holds a truthy value; the check
covers exactly those two spellings, not arbitrary casings of the key. -/
theorem mungOptionsForFetch_contentTypeDefault (opts : MungOptions)
    (adapterHeaders : Option HeaderObj)
    (hm : resolveMethod opts.type ≠ "GET")
    (hb : isTruthyOpt (mungOptionsForFetch opts adapterHeaders).body = true) :
    ((isTruthyOpt (optObjGet (mergeAdapterHeaders opts.headers adapterHeaders)
        "Content-Type") = false ∧
      isTruthyOpt (optObjGet (mergeAdapterHeaders opts.headers adapterHeaders)
        "content-type") = false) →
      optObjGet (mungOptionsForFetch opts adapterHeaders).headers
        "Content-Type" = some "application/json; charset=utf-8") ∧
    ((isTruthyOpt (optObjGet (mergeAdapterHeaders opts.headers adapterHeaders)
        "Content-Type") = true ∨
      isTruthyOpt (optObjGet (mergeAdapterHeaders opts.headers adapterHeaders)
        "content-type") = true) →
      (mungOptionsForFetch opts adapterHeaders).headers =
        mergeAdapterHeaders opts.headers adapterHeaders) := by
  have hmne : (resolveMethod opts.type != "GET") = true := by
    simpa using hm
  have hbody : isTruthyOpt ((resolveUrlBody opts.url (resolveMethod opts.type)
      opts.data).2) = true := hb
  constructor
  · intro habs
    have hcta : contentTypeAbsent
        (mergeAdapterHeaders opts.headers adapterHeaders) = true := by
      cases hmm : mergeAdapterHeaders opts.headers adapterHeaders with
      | none => simp [contentTypeAbsent]
      | some h =>
        have h1 := habs.1
        have h2 := habs.2
        rw [hmm] at h1 h2
        simp [optObjGet] at h1 h2
        simp [contentTypeAbsent, h1, h2]
    show optObjGet (applyContentTypeDefault (resolveMethod opts.type)
        ((resolveUrlBody opts.url (resolveMethod opts.type) opts.data).2)
        (mergeAdapterHeaders opts.headers adapterHeaders)) "Content-Type" = _
    unfold applyContentTypeDefault
    simp only [hmne, hbody, hcta, Bool.and_self, if_true]
    simp [optObjGet, objGet_objSet_self]
  · intro hpres
    have hcta : contentTypeAbsent
        (mergeAdapterHeaders opts.headers adapterHeaders) = false := by
      cases hmm : mergeAdapterHeaders opts.headers adapterHeaders with
      | none =>
        rcases hpres with h | h <;> rw [hmm] at h <;>
          simp [optObjGet, isTruthyOpt] at h
      | some h =>
        rcases hpres with hp | hp <;> rw [hmm] at hp <;>
          simp [optObjGet] at hp <;>
          simp [contentTypeAbsent, hp]
    show applyContentTypeDefault (resolveMethod opts.type)
        ((resolveUrlBody opts.url (resolveMethod opts.type) opts.data).2)
        (mergeAdapterHeaders opts.headers adapterHeaders) = _
    unfold applyContentTypeDefault
    simp [hcta]

/-- Witness for C4 (amended): a POST with a body and no prior content-type
gets the default header; with a lowercase `content-type` supplied it keeps
the headers untouched. -/
theorem mungOptionsForFetch_contentTypeDefault_witness :
    optObjGet (mungOptionsForFetch
      { url := "/widgets", type := some "POST",
        data := some [("a", Js.str "b")], headers := none } none).headers
      "Content-Type" = some "application/json; charset=utf-8" ∧
    (mungOptionsForFetch
      { url := "/widgets", type := some "POST",
        data := some [("a", Js.str "b")],
        headers := some [("content-type", "text/plain")] } none).headers =
      mergeAdapterHeaders (some [("content-type", "text/plain")]) none :=
  ⟨(mungOptionsForFetch_contentTypeDefault
      { url := "/widgets", type := some "POST",
        data := some [("a", Js.str "b")], headers := none } none
      (by decide) (by decide)).1 ⟨rfl, rfl⟩,
   (mungOptionsForFetch_contentTypeDefault
      { url := "/widgets", type := some "POST",
        data := some [("a", Js.str "b")],
        headers := some [("content-type", "text/plain")] } none
      (by decide) (by decide)).2 (Or.inr rfl)⟩

/-- C3 counterexample: `ajaxOptions` is not side-effect free. At a concrete
input the caller's options bag is changed by the call: its `url` and `type`
fields are written (lines 141-142), and the caller's headers object — shared
by reference through the shallow copies — has the adapter's default header
written into it by `assign` (line 47). -/
theorem ajaxOptions_mutates_counterexample :
    (ajaxOptionsEffect "/widgets" "POST"
      { url := none, type := none, data := none,
        headers := some [("X-Auth", "t")] } (some [("H", "v")])).2 ≠
      { url := none, type := none, data := none,
        headers := some [("X-Auth", "t")] } ∧
    (ajaxOptionsEffect "/widgets" "POST"
      { url := none, type := none, data := none,
        headers := some [("X-Auth", "t")] } (some [("H", "v")])).2 =
      { url := some "/widgets", type := some "POST", data := none,
        headers := some [("X-Auth", "t"), ("H", "v")] } := by
  constructor
  · intro h
    have hu := congrArg OptionsBag.url h
    simp [ajaxOptionsEffect] at hu
  · rfl

/-- C3 (amended): `ajaxOptions` returns a new descriptor (the
`mungOptionsForFetch` translation of the bag together with the given url and
method), but it is not free of side effects on the caller-supplied bag: the
bag's `url` and `type` fields are set to the call's arguments, and when the
caller supplied a headers object it ends the call holding exactly the
descriptor's final headers content, whatever the method and adapter
configuration (so merged adapter defaults and any defaulted `Content-Type`
become visible in it); the `data` field is never modified, and a caller who
supplied no headers object has no headers written into the bag. -/
theorem ajaxOptions_effect (url ty : String) (bag : OptionsBag)
    (adapterHeaders : Option HeaderObj) :
    (ajaxOptionsEffect url ty bag adapterHeaders).1 =
      mungOptionsForFetch
        { url := url, type := some ty, data := bag.data,
          headers := bag.headers } adapterHeaders ∧
    (ajaxOptionsEffect url ty bag adapterHeaders).2.url = some url ∧
    (ajaxOptionsEffect url ty bag adapterHeaders).2.type = some ty ∧
    (ajaxOptionsEffect url ty bag adapterHeaders).2.data = bag.data ∧
    (bag.headers = none →
      (ajaxOptionsEffect url ty bag adapterHeaders).2.headers = none) ∧
    (∀ ch, bag.headers = some ch →
      (ajaxOptionsEffect url ty bag adapterHeaders).2.headers =
        (ajaxOptionsEffect url ty bag adapterHeaders).1.headers) ∧
    (∀ ch a k, bag.headers = some ch → adapterHeaders = some a →
      (a.map Prod.fst).Nodup → resolveMethod (some ty) = "GET" →
      optObjGet (ajaxOptionsEffect url ty bag adapterHeaders).2.headers k =
        optOr (objGet a k) (objGet ch k)) := by
  refine ⟨rfl, rfl, rfl, rfl, ?_, ?_, ?_⟩
  · intro hh
    simp [ajaxOptionsEffect, hh]
  · intro ch hch
    have hsome : bag.headers.isSome = true := by simp [hch]
    simp [ajaxOptionsEffect, hsome]
  · intro ch a k hch ha hnd hget
    have hsome : bag.headers.isSome = true := by simp [hch]
    have hstep : (ajaxOptionsEffect url ty bag adapterHeaders).2.headers =
        (mungOptionsForFetch
          { url := url, type := some ty, data := bag.data,
            headers := bag.headers } adapterHeaders).headers := by
      simp [ajaxOptionsEffect, hsome]
    rw [hstep, ha]
    have hm := (mungOptionsForFetch_adapterHeaderMerge
      { url := url, type := some ty, data := bag.data,
        headers := bag.headers } a k hnd).2 hget
    rw [hm, hch]
    rfl

/-- Witness for C3 (amended): at a concrete GET call, the bag ends with the
url written and the caller's headers object shows the adapter's merged
header under its key; at a concrete POST carrying data, the caller's
headers object ends the call equal to the descriptor's final headers,
defaulted `Content-Type` included. -/
theorem ajaxOptions_effect_witness :
    (ajaxOptionsEffect "/widgets" "GET"
      { url := none, type := none, data := none,
        headers := some [("X-Auth", "t")] } (some [("H", "v")])).2.url =
      some "/widgets" ∧
    optObjGet (ajaxOptionsEffect "/widgets" "GET"
      { url := none, type := none, data := none,
        headers := some [("X-Auth", "t")] } (some [("H", "v")])).2.headers
      "H" = optOr (objGet [("H", "v")] "H") (objGet [("X-Auth", "t")] "H") ∧
    (ajaxOptionsEffect "/widgets" "POST"
      { url := none, type := none, data := some [("a", Js.str "b")],
        headers := some [("X-Auth", "t")] } none).2.headers =
      (ajaxOptionsEffect "/widgets" "POST"
        { url := none, type := none, data := some [("a", Js.str "b")],
          headers := some [("X-Auth", "t")] } none).1.headers ∧
    (ajaxOptionsEffect "/widgets" "POST"
      { url := none, type := none, data := some [("a", Js.str "b")],
        headers := some [("X-Auth", "t")] } none).2.headers =
      some [("X-Auth", "t"), ("Content-Type", "application/json; charset=utf-8")] :=
  ⟨(ajaxOptions_effect "/widgets" "GET"
      { url := none, type := none, data := none,
        headers := some [("X-Auth", "t")] } (some [("H", "v")])).2.1,
   (ajaxOptions_effect "/widgets" "GET"
      { url := none, type := none, data := none,
        headers := some [("X-Auth", "t")] } (some [("H", "v")])).2.2.2.2.2.2
    [("X-Auth", "t")] [("H", "v")] "H" rfl rfl (by decide) rfl,
   (ajaxOptions_effect "/widgets" "POST"
      { url := none, type := none, data := some [("a", Js.str "b")],
        headers := some [("X-Auth", "t")] } none).2.2.2.2.2.1
    [("X-Auth", "t")] rfl,
   rfl⟩

/-- C5: for a successful (`response.ok`) response, when the host adapter's
`handleResponse` hook returns a value flagged `isAdapterError`, `ajaxSuccess`
— and hence `ajax` — produces a rejected outcome carrying that value rather
than a resolved one. -/
theorem ajaxSuccess_adapterError_rejected (handleResponse : HandleResponse)
    (parseErrorResponse : Option Js → Option Js)
    (parse : String → ParseOutcome) (response : Resp) (payload : Option Js)
    (warned : Bool) (url ty : String) (hr : HandleResult)
    (hok : response.ok = true)
    (hbody : determineBodyPromise parse response
      { url := url, method := ty } = Except.ok (payload, warned))
    (hhr : handleResponse response.status
      (headersToObject response.headersList)
      (jsOr payload (some (Js.str ""))) { url := url, method := ty } =
      some hr)
    (herr : hr.isAdapterError = true) :
    ajaxSuccess handleResponse response (jsOr payload (some (Js.str "")))
      { url := url, method := ty } = Except.error (some hr) ∧
    ajax (Except.ok response) parse handleResponse parseErrorResponse url ty =
      AjaxOutcome.rejected (some hr) := by
  have h1 : ajaxSuccess handleResponse response
      (jsOr payload (some (Js.str ""))) { url := url, method := ty } =
      Except.error (some hr) := by
    unfold ajaxSuccess
    rw [hhr]
    simp [herr]
  refine ⟨h1, ?_⟩
  simp only [ajax, hbody, hok, if_true]
  rw [h1]

/-- Witness for C5: a 200 response whose host classification flags an
adapter error rejects with that value. -/
theorem ajaxSuccess_adapterError_rejected_witness :
    ajaxSuccess (fun _ _ _ _ => some { isAdapterError := true, tag := 5 })
      { status := 200, ok := true, statusText := "OK", headersList := [],
        bodyText := "null" }
      (jsOr (some Js.null) (some (Js.str "")))
      { url := "/widgets", method := "GET" } =
      Except.error (some { isAdapterError := true, tag := 5 }) ∧
    ajax (Except.ok
        { status := 200, ok := true, statusText := "OK",
          headersList := [], bodyText := "null" })
      (fun _ => ParseOutcome.parsed Js.null)
      (fun _ _ _ _ => some { isAdapterError := true, tag := 5 })
      (fun x => x) "/widgets" "GET" =
      AjaxOutcome.rejected (some { isAdapterError := true, tag := 5 }) :=
  ajaxSuccess_adapterError_rejected
    (fun _ _ _ _ => some { isAdapterError := true, tag := 5 }) (fun x => x)
    (fun _ => ParseOutcome.parsed Js.null)
    { status := 200, ok := true, statusText := "OK", headersList := [],
      bodyText := "null" }
    (some Js.null) false "/widgets" "GET"
    { isAdapterError := true, tag := 5 } rfl rfl rfl rfl

/-- C10: on the success path (`response.ok`), a falsy decoded payload — the
no-content marker (`undefined`), or a body decoding to `null`, `false`, `0`
or the empty string — is replaced by the empty string `''` before being
handed to `ajaxSuccess` and hence to the host's `handleResponse`; on the
failure path the decoded payload is passed to `ajaxError` unchanged. -/
theorem ajax_falsyPayload_replaced (parse : String → ParseOutcome)
    (handleResponse : HandleResponse)
    (parseErrorResponse : Option Js → Option Js) (response : Resp)
    (payload : Option Js) (warned : Bool) (url ty : String)
    (hbody : determineBodyPromise parse response
      { url := url, method := ty } = Except.ok (payload, warned)) :
    (response.ok = true →
      (payload = none ∨ payload = some Js.null ∨
        payload = some (Js.bool false) ∨ payload = some (Js.num 0) ∨
        payload = some (Js.str "")) →
      ajax (Except.ok response) parse handleResponse parseErrorResponse
        url ty =
        match handleResponse response.status
            (headersToObject response.headersList) (some (Js.str ""))
            { url := url, method := ty } with
        | some hr =>
          if hr.isAdapterError then AjaxOutcome.rejected (some hr)
          else AjaxOutcome.resolved (some hr)
        | none => AjaxOutcome.resolved none) ∧
    (response.ok = false →
      ajax (Except.ok response) parse handleResponse parseErrorResponse
        url ty =
        AjaxOutcome.rejected (ajaxError handleResponse parseErrorResponse
          response payload { url := url, method := ty })) := by
  constructor
  · intro hok hfalsy
    have hrepl : jsOr payload (some (Js.str "")) = some (Js.str "") := by
      rcases hfalsy with h | h | h | h | h <;> subst h <;>
        simp [jsOr, jsTruthy]
    simp only [ajax, hbody, hok, if_true]
    rw [hrepl]
    unfold ajaxSuccess
    cases hh : handleResponse response.status
        (headersToObject response.headersList) (some (Js.str ""))
        { url := url, method := ty } with
    | none => simp
    | some hr => cases hia : hr.isAdapterError <;> simp [hia]
  · intro hok
    simp only [ajax, hbody]
    simp [hok]

/-- Witness for C10: a body decoding to `0` on a 200 response reaches the
host hook as the empty string (the hook's tag records what it saw), and on a
404 the raw decoded payload goes to `ajaxError`. -/
theorem ajax_falsyPayload_replaced_witness :
    ajax (Except.ok
        { status := 200, ok := true, statusText := "OK",
          headersList := [], bodyText := "0" })
      (fun _ => ParseOutcome.parsed (Js.num 0))
      (fun _ _ p _ => some
        { isAdapterError := false,
          tag := if p == some (Js.str "") then 7 else 9 })
      (fun x => x) "/widgets" "GET" =
      AjaxOutcome.resolved (some { isAdapterError := false, tag := 7 }) ∧
    ajax (Except.ok
        { status := 404, ok := false, statusText := "Not Found",
          headersList := [], bodyText := "0" })
      (fun _ => ParseOutcome.parsed (Js.num 0))
      (fun _ _ p _ => some
        { isAdapterError := false,
          tag := if p == some (Js.str "") then 7 else 9 })
      (fun x => x) "/widgets" "GET" =
      AjaxOutcome.rejected (ajaxError
        (fun _ _ p _ => some
          { isAdapterError := false,
            tag := if p == some (Js.str "") then 7 else 9 })
        (fun x => x)
        { status := 404, ok := false, statusText := "Not Found",
          headersList := [], bodyText := "0" }
        (some (Js.num 0)) { url := "/widgets", method := "GET" }) :=
  ⟨(ajax_falsyPayload_replaced (fun _ => ParseOutcome.parsed (Js.num 0))
      (fun _ _ p _ => some
        { isAdapterError := false,
          tag := if p == some (Js.str "") then 7 else 9 })
      (fun x => x)
      { status := 200, ok := true, statusText := "OK", headersList := [],
        bodyText := "0" }
      (some (Js.num 0)) false "/widgets" "GET" rfl).1 rfl
    (Or.inr (Or.inr (Or.inr (Or.inl rfl)))),
   (ajax_falsyPayload_replaced (fun _ => ParseOutcome.parsed (Js.num 0))
      (fun _ _ p _ => some
        { isAdapterError := false,
          tag := if p == some (Js.str "") then 7 else 9 })
      (fun x => x)
      { status := 404, ok := false, statusText := "Not Found",
        headersList := [], bodyText := "0" }
      (some (Js.num 0)) false "/widgets" "GET" rfl).2 rfl⟩

end EmberFetch
